import Mathlib

/-!
Verification of the BlueDocs marine-conflict analysis core against its
natural-language specification.

The Python core (`app/services/scorer.py`, `app/services/conflict_engine.py`,
`app/services/recommender.py`) is shallowly embedded here:

* Python floats are modelled as exact rationals (`ℚ`); `round(x, n)` is
  modelled by round-half-to-even on rationals.
* The external geometry engine (Shapely) is an opaque capability: its handles
  are a type parameter `G` and its operations are fields of a `GeomApi G`
  record returning `Except Unit _`, a raised exception being `Except.error ()`.
* The trigonometric routines of the math library are likewise passed in as
  oracle functions on `ℚ`.
* Python dictionaries with string keys are association lists, and dictionary
  iteration order is list order.
-/

namespace BlueDocs

/-! ### Model of Python float rounding -/

/-- Round a rational to the nearest integer, ties to even — the behaviour of
Python `round` (on the exact value). -/
def pyRound (q : ℚ) : ℤ :=
  let f := ⌊q⌋
  let r := q - (f : ℚ)
  if r < 1/2 then f
  else if 1/2 < r then f + 1
  else if f % 2 = 0 then f else f + 1

/-- Python `round(x, 1)`: round to one decimal place, ties to even. -/
def round1 (q : ℚ) : ℚ := (pyRound (q * 10) : ℚ) / 10

/-! ### Data model (`app/models.py`)

`Conflict.detail` is a human-readable string built by f-string interpolation;
it is modelled structurally, keeping the interpolated data. -/

/-- The payload of the `detail` field of a `Conflict`. -/
inductive Detail where
  | overlapsWith (feature : String)
  | withinKmOf (dist : ℚ) (feature : String)
deriving DecidableEq

/-- The `Conflict` model of `app/models.py`. -/
structure Conflict where
  layer_id : String
  layer_name : String
  type : String
  severity : String
  detail : Detail
  overlap_area_km2 : Option ℚ := none
  distance_km : Option ℚ := none
deriving DecidableEq

/-! ### Risk scorer (`app/services/scorer.py`) -/

/-- Severity weights (`_WEIGHTS` in `scorer.py`). -/
def _WEIGHTS : List (String × ℚ) :=
  [("critical", 35), ("warning", 15), ("info", 5)]

/-- Layer-specific multipliers (`_LAYER_MULTIPLIERS` in `scorer.py`);
`1.5, 1.2, 1.0, 0.8` as exact rationals. -/
def _LAYER_MULTIPLIERS : List (String × ℚ) :=
  [("marine-protected-areas", 3/2), ("shipping-lanes", 6/5),
   ("submarine-cables", 1), ("wind-leases", 4/5)]

/-- One iteration of the accumulation loop of `compute_risk_score`:
`raw += base * mult`, then the area bonus guarded by the Python truthiness
test `if c.overlap_area_km2 and c.overlap_area_km2 > 0` (`None` and `0.0`
are falsy). -/
def scoreStep (raw : ℚ) (c : Conflict) : ℚ :=
  let base := (_WEIGHTS.lookup c.severity).getD 5
  let mult := (_LAYER_MULTIPLIERS.lookup c.layer_id).getD 1
  let raw1 := raw + base * mult
  match c.overlap_area_km2 with
  | none => raw1
  | some a => if a = 0 then raw1 else if 0 < a then raw1 + min (a / 50) 10 else raw1

/-- `compute_risk_score` of `scorer.py`: 0–100 risk score and level. -/
def compute_risk_score (conflicts : List Conflict) : ℚ × String :=
  if conflicts.isEmpty then (0, "low")
  else
    let raw := conflicts.foldl scoreStep 0
    let score := min (max raw 0) 100
    let level :=
      if score ≥ 75 then "critical"
      else if score ≥ 50 then "high"
      else if score ≥ 25 then "medium"
      else "low"
    (round1 score, level)

/-- The clamped (pre-rounding) running sum inside `compute_risk_score`:
the value the level thresholds are compared against. -/
def clampedScore (conflicts : List Conflict) : ℚ :=
  if conflicts.isEmpty then 0
  else min (max (conflicts.foldl scoreStep 0) 0) 100

/-- The level thresholds as the spec states them: `score ≥ 75` critical,
`score ≥ 50` high, `score ≥ 25` medium, else low (boundary-inclusive). -/
def levelFor (score : ℚ) : String :=
  if score ≥ 75 then "critical"
  else if score ≥ 50 then "high"
  else if score ≥ 25 then "medium"
  else "low"

/-- Reference per-conflict points, following the spec text of claim C1:
`base = weight(severity)` with critical 35, warning 15, info 5, default 5;
`multiplier = layerMultiplier(layer_id)` with protected areas 1.5, shipping
lanes 1.2, submarine cables 1.0, wind leases 0.8, default 1.0; plus the area
bonus `min(overlap_area_km2 / 50, 10)` only when `overlap_area_km2` is
present and positive. -/
def specConflictPoints (c : Conflict) : ℚ :=
  let base : ℚ :=
    if c.severity = "critical" then 35
    else if c.severity = "warning" then 15
    else if c.severity = "info" then 5
    else 5
  let mult : ℚ :=
    if c.layer_id = "marine-protected-areas" then 3/2
    else if c.layer_id = "shipping-lanes" then 6/5
    else if c.layer_id = "submarine-cables" then 1
    else if c.layer_id = "wind-leases" then 4/5
    else 1
  let bonus : ℚ :=
    match c.overlap_area_km2 with
    | some a => if 0 < a then min (a / 50) 10 else 0
    | none => 0
  base * mult + bonus

/-- Reference risk score, following the spec text of claim C1: empty list
gives `(0, low)`; otherwise the per-conflict points are summed, clamped to
`[0, 100]` and rounded to one decimal place, with the boundary-inclusive
level thresholds. -/
def spec_risk_score (conflicts : List Conflict) : ℚ × String :=
  if conflicts.isEmpty then (0, "low")
  else
    let total := (conflicts.map specConflictPoints).sum
    let score := min (max total 0) 100
    (round1 score, levelFor score)

/-- A single critical overlap conflict on the protected-areas layer with
`overlap_area_km2 = 0`, the scenario of claim C1. -/
def mpaCriticalConflict : Conflict :=
  { layer_id := "marine-protected-areas", layer_name := "Marine Protected Areas",
    type := "overlap", severity := "critical",
    detail := .overlapsWith "MPA", overlap_area_km2 := some 0 }

/-! ### Conflict engine (`app/services/conflict_engine.py`)

Geometry handles are opaque values of a type parameter `G`; the Shapely
operations used inside the per-feature `try` block return
`Except Unit _`, where `Except.error ()` stands for a raised exception.
`Point(lon, lat)` and `buffer` are called outside any `try` block and are
modelled as total. `math.cos(math.radians lat)` is the oracle `cosRad`. -/

/-- The geometry-engine capability consumed by the conflict engine. -/
structure GeomApi (G : Type) where
  point : ℚ → ℚ → G
  buffer : G → ℚ → G
  intersects : G → G → Except Unit Bool
  intersection : G → G → Except Unit G
  area : G → Except Unit ℚ
  distance : G → G → Except Unit ℚ

/-- A loaded layer (`CachedLayer` of `geodata.py`), restricted to the fields
the conflict engine reads. Feature attribute mappings are association lists of
strings; a value is Python-truthy when it is non-empty. -/
structure CachedLayer (G : Type) where
  id : String
  name : String
  buffer_km : ℚ
  geometries : List (G × List (String × String))

/-- `1.0 / 111.0`, the degrees-per-km approximation (`_DEG_PER_KM_LAT`). -/
def _DEG_PER_KM_LAT : ℚ := 1 / 111

/-- `_km_to_deg` of `conflict_engine.py`. -/
def _km_to_deg (km : ℚ) : ℚ := km * _DEG_PER_KM_LAT

/-- `_deg_distance_to_km` of `conflict_engine.py`: flat `deg * 111.0`,
ignoring the latitude argument. -/
def _deg_distance_to_km (deg : ℚ) (lat : ℚ) : ℚ := deg * 111

/-- `ConflictEngine._area_deg2_to_km2`: square degrees to km² using
`111 * (111 * cos(radians lat))`; `cosRad` is the `math.cos ∘ math.radians`
oracle. -/
def _area_deg2_to_km2 (cosRad : ℚ → ℚ) (area_deg2 : ℚ) (lat : ℚ) : ℚ :=
  let km_per_deg_lat : ℚ := 111
  let km_per_deg_lon : ℚ := 111 * cosRad lat
  area_deg2 * km_per_deg_lat * km_per_deg_lon

/-- `ConflictEngine._get_feature_name`: first truthy value among the priority
keys, else the layer display name. -/
def _get_feature_name (props : List (String × String)) (fallback : String) : String :=
  match (["Site_Name", "LEASE_NUMB", "NAME", "name", "OBJECTID"].findSome? fun key =>
    match props.lookup key with
    | some v => if v = "" then none else some v
    | none => none) with
  | some v => v
  | none => fallback

/-- The body of the per-feature `try` block of `ConflictEngine._check_layer`:
overlap check first, buffer check only when the overlap check failed.
`Except.error ()` is a geometry-engine exception anywhere inside the block. -/
def checkFeature {G : Type} (api : GeomApi G) (cosRad : ℚ → ℚ)
    (project_circle buffered_circle : G) (centerLat : ℚ)
    (layerId layerName : String)
    (gp : G × List (String × String)) : Except Unit (Option Conflict) :=
  match api.intersects project_circle gp.1 with
  | .error e => .error e
  | .ok true =>
    match api.intersection project_circle gp.1 with
    | .error e => .error e
    | .ok inter =>
      match api.area inter with
      | .error e => .error e
      | .ok a =>
        let area_km2 := _area_deg2_to_km2 cosRad a centerLat
        let feature_name := _get_feature_name gp.2 layerName
        let severity :=
          if layerId = "marine-protected-areas" then "critical" else "warning"
        .ok (some
          { layer_id := layerId, layer_name := layerName, type := "overlap",
            severity := severity, detail := .overlapsWith feature_name,
            overlap_area_km2 := some (round1 area_km2) })
  | .ok false =>
    match api.intersects buffered_circle gp.1 with
    | .error e => .error e
    | .ok true =>
      match api.distance project_circle gp.1 with
      | .error e => .error e
      | .ok dist_deg =>
        let dist_km := _deg_distance_to_km dist_deg centerLat
        let feature_name := _get_feature_name gp.2 layerName
        .ok (some
          { layer_id := layerId, layer_name := layerName, type := "buffer",
            severity := "warning", detail := .withinKmOf (round1 dist_km) feature_name,
            distance_km := some (round1 dist_km) })
    | .ok false => .ok none

/-- `ConflictEngine._check_layer`: fold over the layer's features, a raised
exception skipping the current feature (`except Exception: continue`). -/
def _check_layer {G : Type} (api : GeomApi G) (cosRad : ℚ → ℚ)
    (project_circle center : G) (centerLat radius_km : ℚ)
    (layer : CachedLayer G) : List Conflict :=
  let buffer_deg := _km_to_deg layer.buffer_km
  let buffered_circle := api.buffer center (_km_to_deg radius_km + buffer_deg)
  layer.geometries.foldl
    (fun acc gp =>
      match checkFeature api cosRad project_circle buffered_circle centerLat
          layer.id layer.name gp with
      | .error _ => acc
      | .ok none => acc
      | .ok (some c) => acc ++ [c])
    []

/-- The severity ranking dictionary of `check_conflicts`
(`{"critical": 0, "warning": 1, "info": 2}`, default 3). -/
def severityOrder : List (String × ℕ) :=
  [("critical", 0), ("warning", 1), ("info", 2)]

/-- The sort key of `check_conflicts`: severity rank, unknown severities 3. -/
def severityRank (severity : String) : ℕ :=
  (severityOrder.lookup severity).getD 3

/-- The comparison used to model the stable Python sort by severity rank. -/
def conflictLE (a b : Conflict) : Bool :=
  severityRank a.severity ≤ severityRank b.severity

/-- The conflicts accumulated across layers by `check_conflicts` before
sorting, in layer-iteration then feature-iteration order. -/
def raw_conflicts {G : Type} (api : GeomApi G) (cosRad : ℚ → ℚ)
    (lat lon radius_km : ℚ) (layers : List (CachedLayer G)) : List Conflict :=
  let center := api.point lon lat
  let radius_deg := _km_to_deg radius_km
  let project_circle := api.buffer center radius_deg
  (layers.map (_check_layer api cosRad project_circle center lat radius_km)).flatten

/-- `ConflictEngine.check_conflicts`: all layer conflicts, stably sorted by
severity rank (Python `list.sort` is a stable sort). -/
def check_conflicts {G : Type} (api : GeomApi G) (cosRad : ℚ → ℚ)
    (lat lon radius_km : ℚ) (layers : List (CachedLayer G)) : List Conflict :=
  (raw_conflicts api cosRad lat lon radius_km layers).mergeSort conflictLE

/-- The project circle built at the top of `check_conflicts`. -/
def projectCircle {G : Type} (api : GeomApi G) (lat lon radius_km : ℚ) : G :=
  api.buffer (api.point lon lat) (_km_to_deg radius_km)

/-- The buffered circle built at the top of `_check_layer` for a layer with
buffer distance `buffer_km`. -/
def bufferedCircle {G : Type} (api : GeomApi G) (lat lon radius_km buffer_km : ℚ) : G :=
  api.buffer (api.point lon lat) (_km_to_deg radius_km + _km_to_deg buffer_km)

/-! ### Recommender (`app/services/recommender.py`)

The candidate-coordinate computation `_offset_point` calls `math.cos` and
`math.sin`; it is passed in whole as an oracle
`offset : ℤ → ℚ → ℚ × ℚ` mapping (bearing, distance) to the already-rounded
candidate coordinates for the fixed original site. The conflict engine and
layer snapshot reach `find_recommendation` as the oracle
`check : ℚ → ℚ → ℚ → List Conflict` (latitude, longitude, radius). -/

/-- The reasoning strings of `find_recommendation`, modelled structurally:
`moved` keeps the interpolated distance, compass direction, original and new
score, and the optional "Avoids N points" integer (`f"{avoided:.0f}"`). -/
inductive Reasoning where
  | empty
  | lowRisk
  | noImprovement
  | moved (dist : ℚ) (direction : String) (fromScore toScore : ℚ) (avoided : Option ℤ)
deriving DecidableEq

/-- The `Recommendation` model of `app/models.py`. -/
structure Recommendation where
  action : String
  suggested_lat : Option ℚ := none
  suggested_lon : Option ℚ := none
  new_risk_score : Option ℚ := none
  reasoning : Reasoning
deriving DecidableEq

/-- The 8 compass bearings of `recommender.py`, in ascending order. -/
def _DIRECTIONS : List ℤ := [0, 45, 90, 135, 180, 225, 270, 315]

/-- The 3 candidate distances in km, ascending. -/
def _DISTANCES_KM : List ℚ := [10, 20, 30]

/-- `_bearing_to_name` of `recommender.py` (default `""`). -/
def _bearing_to_name (bearing : ℤ) : String :=
  (([((0:ℤ), "N"), (45, "NE"), (90, "E"), (135, "SE"), (180, "S"),
     (225, "SW"), (270, "W"), (315, "NW")].lookup bearing)).getD ""

/-- The (bearing, distance) pairs in loop order: bearings outer, distances
inner. -/
def candidatePairs : List (ℤ × ℚ) :=
  (_DIRECTIONS.map fun bearing => _DISTANCES_KM.map fun dist => (bearing, dist)).flatten

/-- The mutable loop state of `find_recommendation`. -/
structure SearchState where
  best_score : ℚ
  best_lat : ℚ
  best_lon : ℚ
  best_reasoning : Reasoning
deriving DecidableEq

/-- One iteration of the candidate loop of `find_recommendation`: the rough
ocean-bounds test, then conflict detection and scoring at the candidate, then
the strict-improvement update of the best state including the regenerated
reasoning (the "Avoids … points" clause is appended exactly when the
candidate's conflict list is non-empty). -/
def candidateStep (check : ℚ → ℚ → ℚ → List Conflict) (offset : ℤ → ℚ → ℚ × ℚ)
    (radius_km original_score : ℚ) (s : SearchState) (bd : ℤ × ℚ) : SearchState :=
  let new_lat := (offset bd.1 bd.2).1
  let new_lon := (offset bd.1 bd.2).2
  if new_lat < 24 ∨ 50 < new_lat ∨ new_lon < -82 ∨ -60 < new_lon then s
  else
    let conflicts := check new_lat new_lon radius_km
    let score := (compute_risk_score conflicts).1
    if score < s.best_score then
      { best_score := score, best_lat := new_lat, best_lon := new_lon,
        best_reasoning :=
          .moved bd.2 (_bearing_to_name bd.1) original_score score
            (if conflicts.isEmpty then none
             else some (pyRound (original_score - score))) }
    else s

/-- `find_recommendation` of `recommender.py`. -/
def find_recommendation (check : ℚ → ℚ → ℚ → List Conflict)
    (offset : ℤ → ℚ → ℚ × ℚ) (lat lon radius_km original_score : ℚ) :
    Recommendation :=
  if original_score ≤ 15 then
    { action := "none", reasoning := .lowRisk }
  else
    let final := candidatePairs.foldl
      (candidateStep check offset radius_km original_score)
      { best_score := original_score, best_lat := lat, best_lon := lon,
        best_reasoning := .empty }
    if original_score ≤ final.best_score then
      { action := "none", reasoning := .noImprovement }
    else
      { action := "relocate",
        suggested_lat := some final.best_lat,
        suggested_lon := some final.best_lon,
        new_risk_score := some final.best_score,
        reasoning := final.best_reasoning }

/-! ### Auxiliary definitions for the theorems below -/

/-- The conflict produced for one feature, `none` when the feature is skipped
(no intersection at all, or a geometry-engine exception). -/
def featureConflict {G : Type} (api : GeomApi G) (cosRad : ℚ → ℚ)
    (project_circle buffered_circle : G) (centerLat : ℚ)
    (layerId layerName : String)
    (gp : G × List (String × String)) : Option Conflict :=
  match checkFeature api cosRad project_circle buffered_circle centerLat
      layerId layerName gp with
  | .ok (some c) => some c
  | _ => none

/-- A `warning` conflict on a layer with no specific multiplier. -/
def warnOther : Conflict :=
  { layer_id := "other-layer", layer_name := "Other", type := "buffer",
    severity := "warning", detail := .withinKmOf 1 "f", distance_km := some 1 }

/-- A `critical` conflict on a layer with no specific multiplier. -/
def critOther : Conflict :=
  { layer_id := "other-layer", layer_name := "Other", type := "overlap",
    severity := "critical", detail := .overlapsWith "f" }

/-- An `info` conflict on a layer with no specific multiplier. -/
def infoOther : Conflict :=
  { layer_id := "other-layer", layer_name := "Other", type := "buffer",
    severity := "info", detail := .withinKmOf 1 "f", distance_km := some 1 }

/-- A detector oracle that reports no conflicts anywhere. -/
def checkNone : ℚ → ℚ → ℚ → List Conflict := fun _ _ _ => []

/-- A candidate-offset oracle sending every (bearing, distance) to the fixed
in-bounds point (35, -70). -/
def offsetConst : ℤ → ℚ → ℚ × ℚ := fun _ _ => (35, -70)

/-- A cosine oracle; the exact values are irrelevant to the properties. -/
def cosOne : ℚ → ℚ := fun _ => 1

/-- A geometry engine over `ℕ` handles that raises on feature `99` and finds
no intersection elsewhere. -/
def apiErr : GeomApi ℕ :=
  { point := fun _ _ => 0, buffer := fun g _ => g,
    intersects := fun _ g => if g = 99 then .error () else .ok false,
    intersection := fun _ _ => .ok 0,
    area := fun _ => .ok 0,
    distance := fun _ _ => .ok 0 }

/-- A layer whose middle feature is the failing geometry `99`. -/
def layer99 : CachedLayer ℕ :=
  { id := "submarine-cables", name := "Submarine Cables", buffer_km := 2,
    geometries := [(1, []), (99, []), (2, [])] }

/-- A geometry engine over `ℕ` handles where every feature intersects the
project circle with intersection area `0`. -/
def apiHit : GeomApi ℕ :=
  { point := fun _ _ => 0, buffer := fun g _ => g,
    intersects := fun _ _ => .ok true,
    intersection := fun _ _ => .ok 0,
    area := fun _ => .ok 0,
    distance := fun _ _ => .ok 0 }

/-- A one-feature wind-leases layer. -/
def layerWind : CachedLayer ℕ :=
  { id := "wind-leases", name := "Offshore Wind Leases", buffer_km := 5,
    geometries := [(7, [])] }

/-- The overlap conflict `apiHit` produces for the `layerWind` feature. -/
def windOverlapConflict : Conflict :=
  { layer_id := "wind-leases", layer_name := "Offshore Wind Leases",
    type := "overlap", severity := "warning",
    detail := .overlapsWith "Offshore Wind Leases", overlap_area_km2 := some 0 }

/-! ### Rounding lemmas -/

/-- `pyRound` is at least the floor. -/
theorem floor_le_pyRound (q : ℚ) : ⌊q⌋ ≤ pyRound q := by
  simp only [pyRound]
  split_ifs <;> omega

/-- `pyRound` is at most the floor plus one. -/
theorem pyRound_le_floor_add_one (q : ℚ) : pyRound q ≤ ⌊q⌋ + 1 := by
  simp only [pyRound]
  split_ifs <;> omega

/-- `pyRound` of an integer is itself. -/
theorem pyRound_intCast (n : ℤ) : pyRound (n : ℚ) = n := by
  simp only [pyRound]
  rw [Int.floor_intCast]
  norm_num

/-- `pyRound` is monotone. -/
theorem pyRound_mono {x y : ℚ} (h : x ≤ y) : pyRound x ≤ pyRound y := by
  rcases lt_or_eq_of_le (Int.floor_mono h) with hf | hf
  · calc pyRound x ≤ ⌊x⌋ + 1 := pyRound_le_floor_add_one x
      _ ≤ ⌊y⌋ := by omega
      _ ≤ pyRound y := floor_le_pyRound y
  · simp only [pyRound]
    rw [← hf]
    have hr : x - (⌊x⌋ : ℚ) ≤ y - (⌊x⌋ : ℚ) := by linarith
    by_cases h1 : x - (⌊x⌋ : ℚ) < 1/2
    · rw [if_pos h1]
      split_ifs <;> omega
    · have h2 : (1:ℚ)/2 ≤ x - (⌊x⌋ : ℚ) := le_of_not_lt h1
      have hy1 : ¬ (y - (⌊x⌋ : ℚ) < 1/2) := by linarith
      by_cases h3 : (1:ℚ)/2 < x - (⌊x⌋ : ℚ)
      · have hy3 : (1:ℚ)/2 < y - (⌊x⌋ : ℚ) := lt_of_lt_of_le h3 hr
        rw [if_neg h1, if_pos h3, if_neg hy1, if_pos hy3]
      · have hx2 : x - (⌊x⌋ : ℚ) = 1/2 := le_antisymm (le_of_not_lt h3) h2
        by_cases h6 : (1:ℚ)/2 < y - (⌊x⌋ : ℚ)
        · rw [if_neg h1, if_neg h3, if_neg hy1, if_pos h6]
          split_ifs <;> omega
        · have hy2 : y - (⌊x⌋ : ℚ) = 1/2 := le_antisymm (le_of_not_lt h6) (le_trans h2 hr)
          have hxy : x = y := by linarith
          rw [hxy]

/-- `round1` is monotone. -/
theorem round1_mono {x y : ℚ} (h : x ≤ y) : round1 x ≤ round1 y := by
  unfold round1
  have h10 : x * 10 ≤ y * 10 := by linarith
  have := pyRound_mono h10
  have hc : ((pyRound (x * 10) : ℚ)) ≤ ((pyRound (y * 10) : ℚ)) := by exact_mod_cast this
  linarith

/-- `round1 0 = 0`. -/
theorem round1_zero : round1 0 = 0 := by
  unfold round1
  norm_num [pyRound]

/-- `round1 100 = 100`. -/
theorem round1_hundred : round1 100 = 100 := by
  unfold round1
  norm_num [pyRound]

/-! ### Scorer lemmas -/

/-- The weight dictionary lookup agrees with the spec's weight table. -/
theorem weights_lookup_eq (s : String) :
    ((_WEIGHTS.lookup s).getD 5 : ℚ)
      = if s = "critical" then 35 else if s = "warning" then 15
        else if s = "info" then 5 else 5 := by
  by_cases h1 : s = "critical"
  · simp [_WEIGHTS, List.lookup, h1]
  · have e1 : (s == "critical") = false := beq_eq_false_iff_ne.mpr h1
    by_cases h2 : s = "warning"
    · simp [_WEIGHTS, List.lookup, e1, h1, h2]
    · have e2 : (s == "warning") = false := beq_eq_false_iff_ne.mpr h2
      by_cases h3 : s = "info"
      · simp [_WEIGHTS, List.lookup, e1, e2, h1, h2, h3]
      · have e3 : (s == "info") = false := beq_eq_false_iff_ne.mpr h3
        simp [_WEIGHTS, List.lookup, e1, e2, e3, h1, h2, h3]

/-- The multiplier dictionary lookup agrees with the spec's multiplier table. -/
theorem multipliers_lookup_eq (lid : String) :
    ((_LAYER_MULTIPLIERS.lookup lid).getD 1 : ℚ)
      = if lid = "marine-protected-areas" then 3/2
        else if lid = "shipping-lanes" then 6/5
        else if lid = "submarine-cables" then 1
        else if lid = "wind-leases" then 4/5
        else 1 := by
  by_cases h1 : lid = "marine-protected-areas"
  · simp [_LAYER_MULTIPLIERS, List.lookup, h1]
  · have e1 : (lid == "marine-protected-areas") = false := beq_eq_false_iff_ne.mpr h1
    by_cases h2 : lid = "shipping-lanes"
    · simp [_LAYER_MULTIPLIERS, List.lookup, e1, h1, h2]
    · have e2 : (lid == "shipping-lanes") = false := beq_eq_false_iff_ne.mpr h2
      by_cases h3 : lid = "submarine-cables"
      · simp [_LAYER_MULTIPLIERS, List.lookup, e1, e2, h1, h2, h3]
      · have e3 : (lid == "submarine-cables") = false := beq_eq_false_iff_ne.mpr h3
        by_cases h4 : lid = "wind-leases"
        · simp [_LAYER_MULTIPLIERS, List.lookup, e1, e2, e3, h1, h2, h3, h4]
        · have e4 : (lid == "wind-leases") = false := beq_eq_false_iff_ne.mpr h4
          simp [_LAYER_MULTIPLIERS, List.lookup, e1, e2, e3, e4, h1, h2, h3, h4]

/-- One accumulation step adds exactly the reference per-conflict points. -/
theorem scoreStep_eq (raw : ℚ) (c : Conflict) :
    scoreStep raw c = raw + specConflictPoints c := by
  simp only [scoreStep, specConflictPoints, weights_lookup_eq, multipliers_lookup_eq]
  cases h : c.overlap_area_km2 with
  | none =>
    dsimp only
    ring
  | some a =>
    dsimp only
    by_cases ha0 : a = 0
    · subst ha0
      norm_num
    · by_cases hap : 0 < a
      · rw [if_neg ha0, if_pos hap, if_pos hap]
        ring
      · rw [if_neg ha0, if_neg hap, if_neg hap]
        ring

/-- The accumulation loop computes the sum of the reference points. -/
theorem foldl_scoreStep_eq (L : List Conflict) (a : ℚ) :
    L.foldl scoreStep a = a + (L.map specConflictPoints).sum := by
  induction L generalizing a with
  | nil => simp
  | cons c L ih =>
    simp only [List.foldl_cons, List.map_cons, List.sum_cons, scoreStep_eq, ih]
    ring

/-- The reference per-conflict points are nonnegative. -/
theorem specConflictPoints_nonneg (c : Conflict) : 0 ≤ specConflictPoints c := by
  unfold specConflictPoints
  have hbase : (0:ℚ) ≤ (if c.severity = "critical" then (35:ℚ)
      else if c.severity = "warning" then 15 else if c.severity = "info" then 5 else 5) := by
    split_ifs <;> norm_num
  have hmult : (0:ℚ) ≤ (if c.layer_id = "marine-protected-areas" then (3:ℚ)/2
      else if c.layer_id = "shipping-lanes" then 6/5
      else if c.layer_id = "submarine-cables" then 1
      else if c.layer_id = "wind-leases" then 4/5 else 1) := by
    split_ifs <;> norm_num
  have hbonus : (0:ℚ) ≤ (match c.overlap_area_km2 with
      | some a => if 0 < a then min (a / 50) 10 else 0
      | none => 0) := by
    cases c.overlap_area_km2 with
    | none => norm_num
    | some a =>
      dsimp only
      by_cases hap : (0:ℚ) < a
      · rw [if_pos hap]
        have : (0:ℚ) ≤ a / 50 := by positivity
        exact le_min this (by norm_num)
      · rw [if_neg hap]

  exact add_nonneg (mul_nonneg hbase hmult) hbonus

/-- The first component of `compute_risk_score` is the rounded clamped sum. -/
theorem compute_risk_score_fst (L : List Conflict) :
    (compute_risk_score L).1 = round1 (clampedScore L) := by
  cases L with
  | nil => simp [compute_risk_score, clampedScore, round1_zero]
  | cons c L => simp [compute_risk_score, clampedScore]

/-- The second component of `compute_risk_score` is the threshold level of
the clamped sum. -/
theorem compute_risk_score_snd (L : List Conflict) :
    (compute_risk_score L).2 = levelFor (clampedScore L) := by
  cases L with
  | nil =>
    simp [compute_risk_score, clampedScore, levelFor]
    norm_num
  | cons c L => simp [compute_risk_score, clampedScore, levelFor]

/-- The clamped sum lies in `[0, 100]`. -/
theorem clampedScore_mem (L : List Conflict) :
    0 ≤ clampedScore L ∧ clampedScore L ≤ 100 := by
  cases L with
  | nil => simp [clampedScore]
  | cons c L =>
    rw [clampedScore]
    simp only [List.isEmpty_cons, if_false, Bool.false_eq_true]
    constructor
    · exact le_min (le_max_right _ _) (by norm_num)
    · exact min_le_right _ _

/-- The clamped sum grows (weakly) when a conflict is appended. -/
theorem clampedScore_append_le (L : List Conflict) (c : Conflict) :
    clampedScore L ≤ clampedScore (L ++ [c]) := by
  cases L with
  | nil =>
    simp only [List.nil_append, clampedScore, List.isEmpty_nil, List.isEmpty_cons, if_true,
      Bool.false_eq_true, if_false]
    exact le_min (le_max_right _ _) (by norm_num)
  | cons d L =>
    rw [clampedScore, clampedScore]
    simp only [List.isEmpty_cons, List.cons_append, Bool.false_eq_true, if_false]
    have hraw : (d :: L).foldl scoreStep 0 ≤ ((d :: L) ++ [c]).foldl scoreStep 0 := by
      rw [List.foldl_append]
      simp only [List.foldl_cons, List.foldl_nil, scoreStep_eq]
      have := specConflictPoints_nonneg c
      linarith
    exact min_le_min (max_le_max hraw le_rfl) le_rfl

/-- C1: `compute_risk_score` equals the reference definition — empty list
gives `(0, low)`; otherwise it sums `weight(severity) * layerMultiplier(layer_id)`
plus the conditional area bonus `min(overlap_area_km2/50, 10)`, clamps to
`[0, 100]` and rounds to one decimal place — and a single critical conflict on
`marine-protected-areas` with `overlap_area_km2 = 0` scores exactly
`(52.5, high)`. -/
theorem compute_risk_score_matches_spec :
    (∀ L : List Conflict, compute_risk_score L = spec_risk_score L)
    ∧ compute_risk_score [mpaCriticalConflict] = (105/2, "high") := by
  constructor
  · intro L
    cases L with
    | nil => rfl
    | cons c L =>
      have h := foldl_scoreStep_eq (c :: L) 0
      simp only [compute_risk_score, spec_risk_score, levelFor, List.isEmpty_cons,
        Bool.false_eq_true, if_false, h, zero_add]
  · have h1 : specConflictPoints mpaCriticalConflict = 105/2 := by
      simp [specConflictPoints, mpaCriticalConflict]
      norm_num
    simp [compute_risk_score, List.foldl_cons, List.foldl_nil, scoreStep_eq, h1]
    norm_num [round1, pyRound]

/-- C4: the risk level is determined by boundary-inclusive thresholds on the
clamped score (`≥ 75` critical, `≥ 50` high, `≥ 25` medium, else low), the
returned score always lies in `[0, 100]`, and clamped scores of exactly 75,
50 and 25 map to critical, high and medium respectively. -/
theorem risk_level_thresholds :
    (∀ L : List Conflict,
      (compute_risk_score L).2 = levelFor (clampedScore L)
        ∧ 0 ≤ (compute_risk_score L).1 ∧ (compute_risk_score L).1 ≤ 100)
    ∧ compute_risk_score [warnOther, warnOther, warnOther, warnOther, warnOther]
        = (75, "critical")
    ∧ compute_risk_score [critOther, warnOther] = (50, "high")
    ∧ compute_risk_score [infoOther, infoOther, infoOther, infoOther, infoOther]
        = (25, "medium") := by
  refine ⟨fun L => ⟨compute_risk_score_snd L, ?_, ?_⟩, ?_, ?_, ?_⟩
  · rw [compute_risk_score_fst]
    have h0 : round1 0 ≤ round1 (clampedScore L) := round1_mono (clampedScore_mem L).1
    rwa [round1_zero] at h0
  · rw [compute_risk_score_fst]
    have h100 : round1 (clampedScore L) ≤ round1 100 := round1_mono (clampedScore_mem L).2
    rwa [round1_hundred] at h100
  · have h1 : specConflictPoints warnOther = 15 := by
      simp [specConflictPoints, warnOther]
    simp [compute_risk_score, List.foldl_cons, List.foldl_nil, scoreStep_eq, h1]
    norm_num [round1, pyRound]
  · have h1 : specConflictPoints warnOther = 15 := by
      simp [specConflictPoints, warnOther]
    have h2 : specConflictPoints critOther = 35 := by
      simp [specConflictPoints, critOther]
    simp [compute_risk_score, List.foldl_cons, List.foldl_nil, scoreStep_eq, h1, h2]
    norm_num [round1, pyRound]
  · have h1 : specConflictPoints infoOther = 5 := by
      simp [specConflictPoints, infoOther]
    simp [compute_risk_score, List.foldl_cons, List.foldl_nil, scoreStep_eq, h1]
    norm_num [round1, pyRound]

/-- C5: appending any single conflict to any conflict list never decreases
the returned risk score, including across the clamp at 100. -/
theorem score_monotone_append (L : List Conflict) (c : Conflict) :
    (compute_risk_score L).1 ≤ (compute_risk_score (L ++ [c])).1 := by
  rw [compute_risk_score_fst, compute_risk_score_fst]
  exact round1_mono (clampedScore_append_le L c)

/-- C9: the two km/degree conversions are as specified and mutually
inconsistent — a buffer distance is the degree separation times a flat 111,
independent of the latitude argument, while an overlap area is the
square-degree area times `111 * (111 * cos(radians lat))` with the site's
latitude, which does depend on the latitude. -/
theorem km_conversions :
    (∀ deg lat lat' : ℚ,
      _deg_distance_to_km deg lat = 111 * deg
        ∧ _deg_distance_to_km deg lat = _deg_distance_to_km deg lat')
    ∧ (∀ (cosRad : ℚ → ℚ) (a lat : ℚ),
        _area_deg2_to_km2 cosRad a lat = 111 * (111 * cosRad lat) * a)
    ∧ (∃ (cosRad : ℚ → ℚ) (a lat lat' : ℚ),
        _area_deg2_to_km2 cosRad a lat ≠ _area_deg2_to_km2 cosRad a lat') := by
  refine ⟨fun deg lat lat' => ⟨by unfold _deg_distance_to_km; ring, rfl⟩,
    fun cosRad a lat => by unfold _area_deg2_to_km2; ring, ?_⟩
  refine ⟨fun l => if l = 0 then 1 else 0, 1, 0, 1, ?_⟩
  unfold _area_deg2_to_km2
  norm_num

/-! ### Sorting lemmas -/

/-- The severity comparison is transitive. -/
theorem conflictLE_trans (a b c : Conflict)
    (hab : conflictLE a b = true) (hbc : conflictLE b c = true) :
    conflictLE a c = true := by
  simp only [conflictLE, decide_eq_true_eq] at hab hbc ⊢
  omega

/-- The severity comparison is total. -/
theorem conflictLE_total (a b : Conflict) :
    (conflictLE a b || conflictLE b a) = true := by
  simp only [conflictLE, Bool.or_eq_true, decide_eq_true_eq]
  omega

/-- A stable sort leaves any filter by a class of mutually related elements
exactly in its original order. -/
theorem filter_mergeSort_of_agree {α : Type} {le : α → α → Bool}
    (htrans : ∀ a b c : α, le a b = true → le b c = true → le a c = true)
    (htotal : ∀ a b : α, (le a b || le b a) = true)
    (p : α → Bool) (hp : ∀ a b : α, p a = true → p b = true → le a b = true)
    (l : List α) :
    (l.mergeSort le).filter p = l.filter p := by
  have hpair : (l.filter p).Pairwise (fun a b => le a b = true) :=
    List.pairwise_of_forall_mem_list fun a ha b hb =>
      hp a b (List.of_mem_filter ha) (List.of_mem_filter hb)
  have hsub : (l.filter p).Sublist (l.mergeSort le) :=
    List.sublist_mergeSort htrans htotal hpair (List.filter_sublist l)
  have hsub2 : (l.filter p).Sublist ((l.mergeSort le).filter p) := by
    have h := hsub.filter p
    simpa only [List.filter_filter, Bool.and_self] using h
  have hperm : ((l.mergeSort le).filter p).Perm (l.filter p) :=
    (List.mergeSort_perm l le).filter p
  exact (hsub2.eq_of_length hperm.length_eq.symm).symm

/-- C3: for every site and layer snapshot the `check_conflicts` output is
stably sorted by severity rank — ranks are nondecreasing along the output,
each severity class keeps exactly its pre-sort (layer/feature iteration)
order, the known severities rank 0, 1, 2, and any unrecognized severity
ranks 3, after all known ranks. -/
theorem check_conflicts_sorted {G : Type} (api : GeomApi G) (cosRad : ℚ → ℚ)
    (lat lon radius_km : ℚ) (layers : List (CachedLayer G)) :
    ((check_conflicts api cosRad lat lon radius_km layers).Pairwise
        fun a b => severityRank a.severity ≤ severityRank b.severity)
    ∧ (∀ s : String,
        (check_conflicts api cosRad lat lon radius_km layers).filter
            (fun c => c.severity == s)
          = (raw_conflicts api cosRad lat lon radius_km layers).filter
              (fun c => c.severity == s))
    ∧ severityRank "critical" = 0 ∧ severityRank "warning" = 1
    ∧ severityRank "info" = 2
    ∧ (∀ s : String,
        s ≠ "critical" → s ≠ "warning" → s ≠ "info" → severityRank s = 3) := by
  refine ⟨?_, ?_, ?_, ?_, ?_, ?_⟩
  · have h := List.sorted_mergeSort conflictLE_trans conflictLE_total
      (raw_conflicts api cosRad lat lon radius_km layers)
    exact h.imp fun hab => by simpa only [conflictLE, decide_eq_true_eq] using hab
  · intro s
    exact filter_mergeSort_of_agree conflictLE_trans conflictLE_total _
      (fun a b ha hb => by
        have ha' : a.severity = s := by simpa using ha
        have hb' : b.severity = s := by simpa using hb
        simp [conflictLE, ha', hb'])
      (raw_conflicts api cosRad lat lon radius_km layers)
  · simp [severityRank, severityOrder, List.lookup]
  · simp [severityRank, severityOrder, List.lookup]
  · simp [severityRank, severityOrder, List.lookup]
  · intro s h1 h2 h3
    have e1 : (s == "critical") = false := beq_eq_false_iff_ne.mpr h1
    have e2 : (s == "warning") = false := beq_eq_false_iff_ne.mpr h2
    have e3 : (s == "info") = false := beq_eq_false_iff_ne.mpr h3
    simp [severityRank, severityOrder, List.lookup, e1, e2, e3]

/-- Witness for C3 at a concrete engine, site and layer snapshot. -/
theorem check_conflicts_sorted_witness :
    severityRank "bogus" = 3
    ∧ ((check_conflicts apiHit cosOne 30 (-70) 10 [layerWind]).Pairwise
        fun a b => severityRank a.severity ≤ severityRank b.severity) :=
  ⟨(check_conflicts_sorted apiHit cosOne 30 (-70) 10 [layerWind]).2.2.2.2.2 "bogus"
      (by decide) (by decide) (by decide),
   (check_conflicts_sorted apiHit cosOne 30 (-70) 10 [layerWind]).1⟩

/-! ### Conflict-engine lemmas -/

/-- The feature fold of `_check_layer` collects exactly the per-feature
conflicts, in feature order. -/
theorem check_layer_eq_filterMap {G : Type} (api : GeomApi G) (cosRad : ℚ → ℚ)
    (project_circle center : G) (centerLat radius_km : ℚ) (layer : CachedLayer G) :
    _check_layer api cosRad project_circle center centerLat radius_km layer
      = layer.geometries.filterMap
          (featureConflict api cosRad project_circle
            (api.buffer center (_km_to_deg radius_km + _km_to_deg layer.buffer_km))
            centerLat layer.id layer.name) := by
  unfold _check_layer
  dsimp only
  generalize layer.geometries = gs
  suffices h : ∀ (gs : List (G × List (String × String))) (acc : List Conflict),
      gs.foldl
        (fun acc gp =>
          match checkFeature api cosRad project_circle
              (api.buffer center (_km_to_deg radius_km + _km_to_deg layer.buffer_km))
              centerLat layer.id layer.name gp with
          | .error _ => acc
          | .ok none => acc
          | .ok (some c) => acc ++ [c]) acc
        = acc ++ gs.filterMap
            (featureConflict api cosRad project_circle
              (api.buffer center (_km_to_deg radius_km + _km_to_deg layer.buffer_km))
              centerLat layer.id layer.name) by
    simpa using h gs []
  intro gs
  induction gs with
  | nil => intro acc; simp
  | cons g gs ih =>
    intro acc
    rw [List.foldl_cons, List.filterMap_cons]
    rcases h : checkFeature api cosRad project_circle
        (api.buffer center (_km_to_deg radius_km + _km_to_deg layer.buffer_km))
        centerLat layer.id layer.name g with e | oc
    · simp only [h, featureConflict]
      rw [ih]
    · cases oc with
      | none =>
        simp only [h, featureConflict]
        rw [ih]
      | some c =>
        simp only [h, featureConflict]
        rw [ih, List.append_assoc, List.singleton_append]

/-- A conflict produced by the per-feature check is an overlap conflict
carrying an area and no distance, or a buffer conflict carrying a distance
and no area. -/
theorem checkFeature_shape {G : Type} (api : GeomApi G) (cosRad : ℚ → ℚ)
    (pc bc : G) (centerLat : ℚ) (layerId layerName : String)
    (gp : G × List (String × String)) (c : Conflict)
    (h : checkFeature api cosRad pc bc centerLat layerId layerName gp = .ok (some c)) :
    (c.type = "overlap" ∧ c.overlap_area_km2.isSome = true ∧ c.distance_km = none)
    ∨ (c.type = "buffer" ∧ c.distance_km.isSome = true ∧ c.overlap_area_km2 = none) := by
  unfold checkFeature at h
  split at h
  · simp at h
  · split at h
    · simp at h
    · split at h
      · simp at h
      · simp only [Except.ok.injEq, Option.some.injEq] at h
        subst h
        exact Or.inl ⟨rfl, rfl, rfl⟩
  · split at h
    · simp at h
    · split at h
      · simp at h
      · simp only [Except.ok.injEq, Option.some.injEq] at h
        subst h
        exact Or.inr ⟨rfl, rfl, rfl⟩
    · simp at h

/-- A per-feature conflict inherits the shape guarantee. -/
theorem featureConflict_shape {G : Type} (api : GeomApi G) (cosRad : ℚ → ℚ)
    (pc bc : G) (centerLat : ℚ) (layerId layerName : String)
    (gp : G × List (String × String)) (c : Conflict)
    (h : featureConflict api cosRad pc bc centerLat layerId layerName gp = some c) :
    (c.type = "overlap" ∧ c.overlap_area_km2.isSome = true ∧ c.distance_km = none)
    ∨ (c.type = "buffer" ∧ c.distance_km.isSome = true ∧ c.overlap_area_km2 = none) := by
  unfold featureConflict at h
  split at h
  · rename_i c0 heq
    rw [Option.some.injEq] at h
    subst h
    exact checkFeature_shape api cosRad pc bc centerLat layerId layerName gp c0 heq
  · simp at h

/-- C8: a geometry-engine exception on one feature skips exactly that
feature — detection over a snapshot containing the failing feature returns
the same conflicts as detection over the snapshot with the feature removed,
with every other feature of the layer and all other layers still checked,
and no error escapes `check_conflicts`. -/
theorem feature_failure_isolated {G : Type} (api : GeomApi G) (cosRad : ℚ → ℚ)
    (lat lon radius_km : ℚ) (L1 L2 : List (CachedLayer G)) (layer : CachedLayer G)
    (fs1 fs2 : List (G × List (String × String))) (f : G × List (String × String))
    (hgeom : layer.geometries = fs1 ++ f :: fs2)
    (herr : checkFeature api cosRad (projectCircle api lat lon radius_km)
        (bufferedCircle api lat lon radius_km layer.buffer_km) lat layer.id layer.name f
      = .error ()) :
    check_conflicts api cosRad lat lon radius_km (L1 ++ layer :: L2)
      = check_conflicts api cosRad lat lon radius_km
          (L1 ++ { layer with geometries := fs1 ++ fs2 } :: L2) := by
  unfold projectCircle bufferedCircle at herr
  unfold check_conflicts raw_conflicts
  dsimp only
  rw [List.map_append, List.map_append, List.map_cons, List.map_cons]
  have hlayer : _check_layer api cosRad
        (api.buffer (api.point lon lat) (_km_to_deg radius_km))
        (api.point lon lat) lat radius_km layer
      = _check_layer api cosRad
        (api.buffer (api.point lon lat) (_km_to_deg radius_km))
        (api.point lon lat) lat radius_km { layer with geometries := fs1 ++ fs2 } := by
    rw [check_layer_eq_filterMap, check_layer_eq_filterMap]
    dsimp only
    rw [hgeom, List.filterMap_append, List.filterMap_append, List.filterMap_cons]
    have hnone : featureConflict api cosRad
        (api.buffer (api.point lon lat) (_km_to_deg radius_km))
        (api.buffer (api.point lon lat) (_km_to_deg radius_km + _km_to_deg layer.buffer_km))
        lat layer.id layer.name f = none := by
      unfold featureConflict
      rw [herr]
    rw [hnone]
  rw [hlayer]

/-- C10: every conflict emitted by `check_conflicts` is an overlap conflict
(with `overlap_area_km2` set and no `distance_km`) or a buffer conflict
(with `distance_km` set and no `overlap_area_km2`) — the `proximity` kind is
never emitted — and a layer yields at most one conflict per feature. -/
theorem conflict_shape {G : Type} (api : GeomApi G) (cosRad : ℚ → ℚ)
    (lat lon radius_km : ℚ) (layers : List (CachedLayer G)) :
    (∀ c ∈ check_conflicts api cosRad lat lon radius_km layers,
      (c.type = "overlap" ∧ c.overlap_area_km2.isSome = true ∧ c.distance_km = none)
      ∨ (c.type = "buffer" ∧ c.distance_km.isSome = true ∧ c.overlap_area_km2 = none))
    ∧ (∀ (project_circle center : G) (centerLat : ℚ) (layer : CachedLayer G),
        (_check_layer api cosRad project_circle center centerLat radius_km layer).length
          ≤ layer.geometries.length) := by
  constructor
  · intro c hc
    rw [check_conflicts, List.mem_mergeSort] at hc
    rw [raw_conflicts] at hc
    rw [List.mem_flatten] at hc
    obtain ⟨l, hl, hcl⟩ := hc
    rw [List.mem_map] at hl
    obtain ⟨layer, _, rfl⟩ := hl
    rw [check_layer_eq_filterMap, List.mem_filterMap] at hcl
    obtain ⟨gp, _, hfc⟩ := hcl
    exact featureConflict_shape api cosRad _ _ _ _ _ gp c hfc
  · intro project_circle center centerLat layer
    rw [check_layer_eq_filterMap]
    exact List.length_filterMap_le _ _

/-- Witness for C8: removing the concrete failing feature `99` from the
concrete cables layer does not change the result. -/
theorem feature_failure_isolated_witness :
    layer99.geometries
        = [((1:ℕ), ([] : List (String × String)))]
          ++ ((99:ℕ), ([] : List (String × String)))
            :: [((2:ℕ), ([] : List (String × String)))]
    ∧ checkFeature apiErr cosOne (projectCircle apiErr 30 (-70) 10)
        (bufferedCircle apiErr 30 (-70) 10 layer99.buffer_km) 30
        layer99.id layer99.name ((99:ℕ), ([] : List (String × String)))
        = .error ()
    ∧ check_conflicts apiErr cosOne 30 (-70) 10 ([] ++ layer99 :: [])
        = check_conflicts apiErr cosOne 30 (-70) 10
            ([] ++ ({ layer99 with geometries := [(1, [])] ++ [(2, [])] }) :: []) := by
  have herr : checkFeature apiErr cosOne (projectCircle apiErr 30 (-70) 10)
      (bufferedCircle apiErr 30 (-70) 10 layer99.buffer_km) 30
      layer99.id layer99.name ((99:ℕ), ([] : List (String × String)))
      = .error () := by
    simp [checkFeature, apiErr, projectCircle, bufferedCircle]
  exact ⟨rfl, herr,
    feature_failure_isolated apiErr cosOne 30 (-70) 10 [] [] layer99
      [(1, [])] [(2, [])] (99, []) rfl herr⟩

/-- Witness for C10 at a concrete engine and layer: the produced conflict is
a member of the output and has the overlap shape. -/
theorem conflict_shape_witness :
    windOverlapConflict ∈ check_conflicts apiHit cosOne 30 (-70) 10 [layerWind]
    ∧ ((windOverlapConflict.type = "overlap"
        ∧ windOverlapConflict.overlap_area_km2.isSome = true
        ∧ windOverlapConflict.distance_km = none)
      ∨ (windOverlapConflict.type = "buffer"
        ∧ windOverlapConflict.distance_km.isSome = true
        ∧ windOverlapConflict.overlap_area_km2 = none)) := by
  have harea : round1 (_area_deg2_to_km2 cosOne 0 30) = 0 := by
    norm_num [_area_deg2_to_km2, cosOne, round1, pyRound]
  have hlist : check_conflicts apiHit cosOne 30 (-70) 10 [layerWind]
      = [windOverlapConflict] := by
    simp [check_conflicts, raw_conflicts, _check_layer, checkFeature, apiHit,
      layerWind, _get_feature_name, List.findSome?, List.lookup,
      windOverlapConflict, harea]
  have hmem : windOverlapConflict ∈ check_conflicts apiHit cosOne 30 (-70) 10 [layerWind] := by
    rw [hlist]
    exact List.mem_singleton.mpr rfl
  exact ⟨hmem,
    (conflict_shape apiHit cosOne 30 (-70) 10 [layerWind]).1 windOverlapConflict hmem⟩

/-! ### Recommender lemmas -/

/-- C6: when the original score is at most 15 the recommender returns the
fixed low-risk `none` recommendation immediately; the result is independent
of the detector/scorer and offset oracles, so no candidate is evaluated. -/
theorem low_risk_short_circuit
    (check check' : ℚ → ℚ → ℚ → List Conflict)
    (offset offset' : ℤ → ℚ → ℚ × ℚ)
    (lat lon radius_km original_score : ℚ)
    (h : original_score ≤ 15) :
    find_recommendation check offset lat lon radius_km original_score
        = { action := "none", reasoning := .lowRisk }
    ∧ find_recommendation check offset lat lon radius_km original_score
        = find_recommendation check' offset' lat lon radius_km original_score := by
  constructor <;> simp [find_recommendation, if_pos h]

/-- Witness for C6 at concrete oracles and inputs. -/
theorem low_risk_short_circuit_witness :
    ((10:ℚ) ≤ 15)
    ∧ find_recommendation checkNone offsetConst 32 (-75) 5 10
        = { action := "none", reasoning := .lowRisk } :=
  ⟨by norm_num,
   (low_risk_short_circuit checkNone checkNone offsetConst offsetConst
      32 (-75) 5 10 (by norm_num)).1⟩

/-- C7: whenever the recommender relocates, the suggested coordinates lie in
the fixed ocean box (latitude in `[24, 50]`, longitude in `[-82, -60]`);
candidates outside the box are skipped by the bounds test and can never
become the suggestion. -/
theorem relocate_within_bounds
    (check : ℚ → ℚ → ℚ → List Conflict) (offset : ℤ → ℚ → ℚ × ℚ)
    (lat lon radius_km original_score : ℚ)
    (h : (find_recommendation check offset lat lon radius_km original_score).action
        = "relocate") :
    ∃ la lo : ℚ,
      (find_recommendation check offset lat lon radius_km original_score).suggested_lat
          = some la
      ∧ (find_recommendation check offset lat lon radius_km original_score).suggested_lon
          = some lo
      ∧ 24 ≤ la ∧ la ≤ 50 ∧ -82 ≤ lo ∧ lo ≤ -60 := by
  simp only [find_recommendation] at h ⊢
  by_cases h15 : original_score ≤ 15
  · rw [if_pos h15] at h
    simp at h
  · rw [if_neg h15] at h ⊢
    have hinv := @List.foldlRecOn SearchState (ℤ × ℚ)
      (fun st : SearchState =>
        original_score ≤ st.best_score
          ∨ (24 ≤ st.best_lat ∧ st.best_lat ≤ 50
              ∧ -82 ≤ st.best_lon ∧ st.best_lon ≤ -60))
      candidatePairs (candidateStep check offset radius_km original_score)
      { best_score := original_score, best_lat := lat, best_lon := lon,
        best_reasoning := Reasoning.empty }
      (Or.inl le_rfl)
      (by
        intro st hst bd _
        simp only [candidateStep]
        split
        · exact hst
        · rename_i hguard
          split
          · push_neg at hguard
            exact Or.inr ⟨hguard.1, hguard.2.1, hguard.2.2.1, hguard.2.2.2⟩
          · exact hst)
    by_cases hle : original_score
        ≤ (candidatePairs.foldl (candidateStep check offset radius_km original_score)
            { best_score := original_score, best_lat := lat, best_lon := lon,
              best_reasoning := Reasoning.empty }).best_score
    · rw [if_pos hle] at h
      simp at h
    · rw [if_neg hle] at h ⊢
      rcases hinv with hb | hb
      · exact absurd hb hle
      · exact ⟨_, _, rfl, rfl, hb.1, hb.2.1, hb.2.2.1, hb.2.2.2⟩

/-- Full evaluation of a concrete recommender run: original score 52.5, no
conflicts anywhere, every candidate offset landing on (35, -70). The first
candidate (bearing 0, distance 10) improves to score 0 and is kept. -/
theorem concreteRun_eval :
    find_recommendation checkNone offsetConst 32 (-75) 5 (105/2)
      = { action := "relocate", suggested_lat := some 35, suggested_lon := some (-70),
          new_risk_score := some 0,
          reasoning := .moved 10 "N" (105/2) 0 none } := by
  have hname : _bearing_to_name 0 = "N" := by
    simp [_bearing_to_name, List.lookup]
  norm_num [find_recommendation, candidatePairs, _DIRECTIONS, _DISTANCES_KM,
    List.foldl_cons, List.foldl_nil, candidateStep, checkNone, offsetConst,
    compute_risk_score, hname]

/-- C2 (amended): whenever a candidate strictly improves on the best score
seen so far, the loop step regenerates the reasoning naming the compass
direction, the distance, the original score and the new score, and it
includes the numeric risk-point delta avoided exactly when the candidate
site's conflict list is non-empty. -/
theorem reasoning_regenerated
    (check : ℚ → ℚ → ℚ → List Conflict) (offset : ℤ → ℚ → ℚ × ℚ)
    (radius_km original_score : ℚ) (s : SearchState) (bearing : ℤ) (dist : ℚ)
    (hin : ¬((offset bearing dist).1 < 24 ∨ 50 < (offset bearing dist).1
        ∨ (offset bearing dist).2 < -82 ∨ -60 < (offset bearing dist).2))
    (himp : (compute_risk_score
        (check (offset bearing dist).1 (offset bearing dist).2 radius_km)).1
        < s.best_score) :
    candidateStep check offset radius_km original_score s (bearing, dist)
      = { best_score := (compute_risk_score
            (check (offset bearing dist).1 (offset bearing dist).2 radius_km)).1,
          best_lat := (offset bearing dist).1,
          best_lon := (offset bearing dist).2,
          best_reasoning := .moved dist (_bearing_to_name bearing) original_score
            (compute_risk_score
              (check (offset bearing dist).1 (offset bearing dist).2 radius_km)).1
            (if (check (offset bearing dist).1 (offset bearing dist).2 radius_km).isEmpty
             then none
             else some (pyRound (original_score
               - (compute_risk_score
                   (check (offset bearing dist).1 (offset bearing dist).2 radius_km)).1))) } := by
  simp only [candidateStep]
  rw [if_neg hin, if_pos himp]

/-- Witness for the amended C2 at concrete oracles: the candidate (bearing 0,
distance 10) improves 52.5 to 0 with an empty candidate conflict list, so the
regenerated reasoning carries no avoided-delta clause. -/
theorem reasoning_regenerated_witness :
    ((compute_risk_score (checkNone 35 (-70) 5)).1 < (105/2 : ℚ))
    ∧ candidateStep checkNone offsetConst 5 (105/2)
        { best_score := 105/2, best_lat := 32, best_lon := -75,
          best_reasoning := .empty } (0, 10)
      = { best_score := 0, best_lat := 35, best_lon := -70,
          best_reasoning := .moved 10 "N" (105/2) 0 none } := by
  have hname : _bearing_to_name 0 = "N" := by
    simp [_bearing_to_name, List.lookup]
  have hs : (compute_risk_score (checkNone 35 (-70) 5)).1 = 0 := by
    simp [checkNone, compute_risk_score]
  have h1 : ¬(((offsetConst 0 10).1 : ℚ) < 24 ∨ 50 < ((offsetConst 0 10).1 : ℚ)
      ∨ ((offsetConst 0 10).2 : ℚ) < -82 ∨ -60 < ((offsetConst 0 10).2 : ℚ)) := by
    norm_num [offsetConst]
  have h2 : (compute_risk_score
      (checkNone (offsetConst 0 10).1 (offsetConst 0 10).2 5)).1 < (105/2 : ℚ) := by
    norm_num [checkNone, compute_risk_score, offsetConst]
  have h := reasoning_regenerated checkNone offsetConst 5 (105/2)
    { best_score := 105/2, best_lat := 32, best_lon := -75,
      best_reasoning := .empty } 0 10 h1 h2
  constructor
  · rw [hs]
    norm_num
  · rw [h]
    simp [checkNone, offsetConst, compute_risk_score, hname]

/-- Counterexample to C2 as stated: the original score 52.5 arises from a
non-empty conflict list (a critical protected-areas conflict), a candidate
strictly improves it to 0, yet the regenerated reasoning contains no
risk-point delta, because the code tests the candidate's conflict list — not
the original site's — for emptiness. -/
theorem reasoning_delta_counterexample :
    compute_risk_score [mpaCriticalConflict] = (105/2, "high")
    ∧ (find_recommendation checkNone offsetConst 32 (-75) 5 (105/2)).reasoning
        = .moved 10 "N" (105/2) 0 none := by
  constructor
  · have h1 : specConflictPoints mpaCriticalConflict = 105/2 := by
      simp [specConflictPoints, mpaCriticalConflict]
      norm_num
    simp [compute_risk_score, List.foldl_cons, List.foldl_nil, scoreStep_eq, h1]
    norm_num [round1, pyRound]
  · rw [concreteRun_eval]

/-- Witness for C7 at concrete oracles: the run relocates, and the suggested
coordinates (35, -70) are inside the box. -/
theorem relocate_within_bounds_witness :
    (find_recommendation checkNone offsetConst 32 (-75) 5 (105/2)).action = "relocate"
    ∧ ∃ la lo : ℚ,
        (find_recommendation checkNone offsetConst 32 (-75) 5 (105/2)).suggested_lat
            = some la
        ∧ (find_recommendation checkNone offsetConst 32 (-75) 5 (105/2)).suggested_lon
            = some lo
        ∧ 24 ≤ la ∧ la ≤ 50 ∧ -82 ≤ lo ∧ lo ≤ -60 := by
  have hact : (find_recommendation checkNone offsetConst 32 (-75) 5 (105/2)).action
      = "relocate" := by
    rw [concreteRun_eval]
  exact ⟨hact, relocate_within_bounds checkNone offsetConst 32 (-75) 5 (105/2) hact⟩

end BlueDocs
